import Mathlib

/-!
Verification of the AMC showtime-alert pipeline.

Shallow embedding of the core logic of the repository:
`amc_scraper.py` (retrying fetch engine, time normalization, showtime
sorting), `notification_state.py` (deduplication store: `should_notify`,
`mark_as_notified`, `cleanup_old_entries`), and `telegram_notifier.py`
(deduplicating delivery dispatcher).  Python strings are Lean `String`s
(Python compares strings by Unicode code point, as does Lean), Python
lists are Lean `List`s, Python `set`s of strings are `Finset String`s,
SQLite tables are association lists keyed by the primary key, exceptions
are `Except`, and thread-free sequential runs are pure state passing.
-/

namespace AmcAlert

/-! ## Digit and date rendering utilities

`datetime.strftime("%Y-%m-%d")` renders a date as a zero-padded
ISO-8601 string; we model the digit characters explicitly. -/

/-- The ASCII digit character for `n % 10`. -/
def digitChar (n : Nat) : Char := Char.ofNat (48 + n % 10)

/-- Two-digit zero-padded rendering of `n` (used for `%m` and `%d`). -/
def pad2 (n : Nat) : List Char := [digitChar (n / 10), digitChar n]

/-- Four-digit zero-padded rendering of `n` (used for `%Y`). -/
def pad4 (n : Nat) : List Char :=
  [digitChar (n / 1000), digitChar (n / 100), digitChar (n / 10), digitChar n]

/-- A calendar date as held by Python's `datetime`. -/
structure PyDate where
  y : Nat
  m : Nat
  d : Nat
deriving DecidableEq, Repr

/-- Gregorian leap-year rule, as in Python's `calendar`/`datetime`. -/
def isLeap (y : Nat) : Bool := (y % 4 == 0 && y % 100 != 0) || y % 400 == 0

/-- Number of days in month `m` of year `y`. -/
def daysInMonth (y m : Nat) : Nat :=
  if m = 2 then (if isLeap y then 29 else 28)
  else if m = 4 ∨ m = 6 ∨ m = 9 ∨ m = 11 then 30
  else 31

/-- A date is valid when its month and day are in range. -/
def ValidDate (D : PyDate) : Prop :=
  1 ≤ D.m ∧ D.m ≤ 12 ∧ 1 ≤ D.d ∧ D.d ≤ daysInMonth D.y D.m ∧ 1 ≤ D.y

instance (D : PyDate) : Decidable (ValidDate D) := by
  unfold ValidDate; infer_instance

/-- The previous calendar day.  Iterating this is extensionally
`datetime - timedelta(days=1)` on the proleptic Gregorian calendar. -/
def prevDay (D : PyDate) : PyDate :=
  if 2 ≤ D.d then ⟨D.y, D.m, D.d - 1⟩
  else if 2 ≤ D.m then ⟨D.y, D.m - 1, daysInMonth D.y (D.m - 1)⟩
  else ⟨D.y - 1, 12, 31⟩

/-- `datetime.now() - timedelta(days=k)`, modelled as `k` single-day steps. -/
def subDays (D : PyDate) : Nat → PyDate
  | 0 => D
  | k + 1 => prevDay (subDays D k)

/-- Character list of `strftime("%Y-%m-%d")` (zero-padded ISO 8601). -/
def isoChars (D : PyDate) : List Char :=
  pad4 D.y ++ '-' :: (pad2 D.m ++ '-' :: pad2 D.d)

/-- The ISO-8601 date string `strftime("%Y-%m-%d")`. -/
def isoDate (D : PyDate) : String := ⟨isoChars D⟩

/-! ## Schema (`schema.py`) -/

/-- The closed enum of special event types (`EventType` in `schema.py`). -/
inductive EventType where
  | advance_screening
  | early_access
  | fan_event
  | one_night_only
  | panel_discussion
  | premiere_event
  | qa
  | sneak_peek
  | special_event
  | talkback
deriving DecidableEq, Repr

/-- `ShowtimeChange` dataclass: showtime diff lists. -/
structure ShowtimeChange where
  added : List String
  removed : List String
  unchanged : List String
deriving DecidableEq, Repr

/-- `EventData` dataclass: one special event. -/
structure EventData where
  movie_name : String
  theater : String
  date : String
  slug : String
  event_type : EventType
  showtimes : List String
  runtime : Option Int := none
  rating : String := ""
deriving DecidableEq, Repr

/-- `Movie` dataclass from `schema.py`. -/
structure Movie where
  name : String
  slug : String
  runtime : Option Int
  rating : String
  showtimes : List String
deriving DecidableEq, Repr

/-- `DailyShowtimes` dataclass from `schema.py`. -/
structure DailyShowtimes where
  date : String
  theater : String
  movies : List Movie
  fetch_time : String
  success : Bool
  error_message : Option String := none
deriving DecidableEq, Repr

/-! ## Deduplication store (`notification_state.py`)

The SQLite `notifications` table is an association list keyed by the
primary key `notification_id`; `sqlite3.Error` / `json.JSONDecodeError`
outcomes are injected as `Except` values where the source catches them. -/

/-- One row of the `notifications` table. -/
structure NotificationRecord where
  theater : String
  date : String
  movie_name : String
  movie_slug : String
  event_type : EventType
  showtimes : List String
  runtime : Option Int
  rating : String
  first_notified_at : String
  last_updated_at : String
  notification_count : Nat
deriving DecidableEq, Repr

/-- The persistent store: rows keyed by `notification_id`. -/
abbrev Store := List (String × NotificationRecord)

/-- `SELECT ... WHERE notification_id = ?` on the primary key. -/
def db_lookup (id : String) : Store → Option NotificationRecord
  | [] => none
  | (k, v) :: rest => if k = id then some v else db_lookup id rest

/-- `INSERT OR REPLACE`: replace the row with this key, or add one. -/
def db_upsert (id : String) (r : NotificationRecord) : Store → Store
  | [] => [(id, r)]
  | (k, v) :: rest =>
      if k = id then (id, r) :: rest else (k, v) :: db_upsert id r rest

/-- `UPDATE ... WHERE notification_id = ?`: modify the row with this key
if it exists; a non-matching `UPDATE` touches no rows. -/
def db_modify (id : String) (f : NotificationRecord → NotificationRecord) :
    Store → Store
  | [] => []
  | (k, v) :: rest =>
      if k = id then (k, f v) :: rest else (k, v) :: db_modify id f rest

/-- Python `s.replace(" ", "_")`: every space becomes an underscore. -/
def replace_spaces (s : String) : String :=
  ⟨s.data.map (fun c => if c = ' ' then '_' else c)⟩

/-- `NotificationState._generate_notification_id`:
`theater.replace(" ", "_") + "_" + date + "_" + slug`. -/
def generate_notification_id (event : EventData) : String :=
  replace_spaces event.theater ++ "_" ++ event.date ++ "_" ++ event.slug

/-- Executable lexicographic `<` on char lists: Python's string
comparison by Unicode code point. -/
def chars_lt : List Char → List Char → Bool
  | [], [] => false
  | [], _ :: _ => true
  | _ :: _, [] => false
  | a :: as, b :: bs =>
      if a < b then true else if b < a then false else chars_lt as bs

/-- Executable Python string `<`. -/
def str_lt (a b : String) : Bool := chars_lt a.data b.data

/-- Executable Python string `<=` (total order: `a <= b ↔ ¬ b < a`). -/
def str_le (a b : String) : Bool := !str_lt b a

/-- Python `set(l1) == set(l2)`: mutual containment. -/
def py_set_eq (l1 l2 : List String) : Bool :=
  l1.all l2.contains && l2.all l1.contains

/-- Python `sorted(s)` of a set of strings: deduplicate, then sort by
the string order. -/
def py_sorted_set (l : List String) : List String :=
  l.dedup.mergeSort str_le

/-- Core of `NotificationState.should_notify` given the outcome of the
database read (`.error` = a caught `sqlite3.Error` or JSON decode error,
`.ok none` = no row, `.ok (some stored)` = the stored showtime list).
The Python set expressions `sorted(new - old)`, `sorted(old - new)` and
`sorted(old & new)` are rendered as sorted deduplicated filters. -/
def should_notify_db (dbRead : Except String (Option (List String)))
    (event : EventData) : Bool × Option ShowtimeChange :=
  match dbRead with
  | .error _ => (true, none)
  | .ok none => (true, none)
  | .ok (some existing_showtimes) =>
      let new_showtimes := event.showtimes
      if py_set_eq existing_showtimes new_showtimes then (false, none)
      else
        let added := py_sorted_set
          (new_showtimes.filter (fun t => !existing_showtimes.contains t))
        let removed := py_sorted_set
          (existing_showtimes.filter (fun t => !new_showtimes.contains t))
        let unchanged := py_sorted_set
          (new_showtimes.filter (fun t => existing_showtimes.contains t))
        (true, some ⟨added, removed, unchanged⟩)

/-- `NotificationState.should_notify` on an error-free store. -/
def should_notify (store : Store) (event : EventData) :
    Bool × Option ShowtimeChange :=
  should_notify_db
    (.ok ((db_lookup (generate_notification_id event) store).map
      (·.showtimes))) event

/-- Pure effect of `NotificationState.mark_as_notified` on the table
(`now` is `datetime.now().isoformat()`). -/
def mark_as_notified (store : Store) (event : EventData) (now : String)
    (is_update : Bool) : Store :=
  let notification_id := generate_notification_id event
  if is_update then
    db_modify notification_id
      (fun r => { r with
        showtimes := event.showtimes
        last_updated_at := now
        notification_count := r.notification_count + 1 }) store
  else
    db_upsert notification_id
      { theater := event.theater
        date := event.date
        movie_name := event.movie_name
        movie_slug := event.slug
        event_type := event.event_type
        showtimes := event.showtimes
        runtime := event.runtime
        rating := event.rating
        first_notified_at := now
        last_updated_at := now
        notification_count := 1 } store

/-- `NotificationState.mark_as_notified` with the write outcome injected:
a caught `sqlite3.Error` (`some e`) is logged and re-raised. -/
def mark_as_notified_db (dbWrite : Option String) (store : Store)
    (event : EventData) (now : String) (is_update : Bool) :
    Except String Store :=
  match dbWrite with
  | some e => .error e
  | none => .ok (mark_as_notified store event now is_update)

/-- `NotificationState.cleanup_old_entries` (error-free path): delete the
rows whose `date` column compares `<` (SQLite TEXT comparison) to the
cutoff `(datetime.now() - timedelta(days)).strftime("%Y-%m-%d")`;
return the new table and `cursor.rowcount`. -/
def cleanup_old_entries (store : Store) (today : PyDate) (days : Nat) :
    Store × Nat :=
  let cutoff_date := isoDate (subDays today days)
  let deleted := store.filter (fun p => decide (p.2.date < cutoff_date))
  let kept := store.filter (fun p => !decide (p.2.date < cutoff_date))
  (kept, deleted.length)

/-! ## Fetch engine (`amc_scraper.py`, `_fetch_with_retry`)

One network attempt's outcome is an oracle value; the loop threads the
shared statistics and records every `time.sleep` duration in order.
A Python exception escaping the function is an `Except.error`. -/

/-- What one `requests.get` attempt does. -/
inductive AttemptOutcome where
  | success (body : String)
  | timeout
  | httpError (status : Nat)
  | requestError (msg : String)
deriving DecidableEq, Repr

/-- The shared `self.stats` counters of `AMCShowtimeScraper`. -/
structure ScrapeStats where
  total_requests : Nat := 0
  successful_requests : Nat := 0
  failed_requests : Nat := 0
  total_movies_found : Nat := 0
  parsing_errors : Nat := 0
deriving DecidableEq, Repr

/-- Result of running `_fetch_with_retry`: the returned value (or an
escaping exception), the updated shared stats, and the `time.sleep`
durations in order. -/
structure FetchOutcome where
  result : Except String (Option String)
  stats : ScrapeStats
  sleeps : List Nat
deriving Repr

/-- `retry_delays[min(attempt, len(retry_delays) - 1)]`; `IndexError` on
an empty list (Python's `min(attempt, -1) = -1` indexes an empty list). -/
def delays_index (retry_delays : List Nat) (attempt : Nat) :
    Except String Nat :=
  match retry_delays.get? (min attempt (retry_delays.length - 1)) with
  | some d => .ok d
  | none => .error "IndexError"

/-- `retry_delays[-1]`; `IndexError` on an empty list. -/
def delays_last (retry_delays : List Nat) : Except String Nat :=
  match retry_delays.getLast? with
  | some d => .ok d
  | none => .error "IndexError"

/-- The `for attempt in range(max_retries)` loop of `_fetch_with_retry`,
structurally recursive on the remaining attempt count.  Per attempt:
`total_requests += 1`; on success `successful_requests += 1` and return;
a 429 `HTTPError` first sleeps `retry_delays[-1] * 2`; every caught
failure then sleeps `retry_delays[min(attempt, len - 1)]` unless this was
the final attempt (`attempt < max_retries - 1`, i.e. `attempt + 1 <
max_retries`).  After the loop: `failed_requests += 1`, return `None`. -/
def fetch_go (max_retries : Nat) (retry_delays : List Nat)
    (outcomes : Nat → AttemptOutcome) :
    Nat → Nat → ScrapeStats → List Nat → FetchOutcome
  | _, 0, stats, sleeps =>
      ⟨.ok none,
        { stats with failed_requests := stats.failed_requests + 1 }, sleeps⟩
  | attempt, fuel + 1, stats, sleeps =>
      let stats := { stats with total_requests := stats.total_requests + 1 }
      match outcomes attempt with
      | .success body =>
          ⟨.ok (some body),
            { stats with
              successful_requests := stats.successful_requests + 1 }, sleeps⟩
      | o =>
          let extra : Except String (List Nat) :=
            match o with
            | .httpError status =>
                if status = 429 then
                  (delays_last retry_delays).map (fun l => [l * 2])
                else .ok []
            | _ => .ok []
          match extra with
          | .error e => ⟨.error e, stats, sleeps⟩
          | .ok extraSleeps =>
              let sleeps := sleeps ++ extraSleeps
              if attempt + 1 < max_retries then
                match delays_index retry_delays attempt with
                | .error e => ⟨.error e, stats, sleeps⟩
                | .ok delay =>
                    fetch_go max_retries retry_delays outcomes (attempt + 1)
                      fuel stats (sleeps ++ [delay])
              else
                fetch_go max_retries retry_delays outcomes (attempt + 1)
                  fuel stats sleeps

/-- `AMCShowtimeScraper._fetch_with_retry`. -/
def fetch_with_retry (max_retries : Nat) (retry_delays : List Nat)
    (outcomes : Nat → AttemptOutcome) (stats : ScrapeStats) : FetchOutcome :=
  fetch_go max_retries retry_delays outcomes 0 max_retries stats []

/-! ## Time utilities and parsing (`amc_scraper.py`) -/

/-- An ASCII character matched by the regex class `\s`. -/
def isPySpace (c : Char) : Bool :=
  c == ' ' || c == '\t' || c == '\n' || c == '\r' ||
    c == Char.ofNat 11 || c == Char.ofNat 12

/-- Python `int()` on a digit string. -/
def digits_to_nat (ds : List Char) : Nat :=
  ds.foldl (fun n c => n * 10 + (c.toNat - 48)) 0

/-- Prefix match of the regex `(\d+):(\d+)\s*(AM|PM)` (case-sensitive,
`re.match`): hour digits, minute digits, and whether the period is PM. -/
def parse_time_chars (cs : List Char) : Option (Nat × Nat × Bool) :=
  match cs.span Char.isDigit with
  | (ds1, rest1) =>
    if ds1.isEmpty then none
    else match rest1 with
      | c :: rest2 =>
        if c = ':' then
          match rest2.span Char.isDigit with
          | (ds2, rest3) =>
            if ds2.isEmpty then none
            else match rest3.dropWhile isPySpace with
              | c1 :: c2 :: _ =>
                  if c1 = 'A' then
                    if c2 = 'M' then
                      some (digits_to_nat ds1, digits_to_nat ds2, false)
                    else none
                  else if c1 = 'P' then
                    if c2 = 'M' then
                      some (digits_to_nat ds1, digits_to_nat ds2, true)
                    else none
                  else none
              | _ => none
        else none
      | [] => none

/-- `AMCShowtimeScraper._time_to_minutes`: minutes since midnight for
sorting; `0` when the pattern does not match. -/
def time_to_minutes (time_str : String) : Nat :=
  match parse_time_chars time_str.data with
  | none => 0
  | some (h, minute, pm) =>
      let hour := if pm ∧ h ≠ 12 then h + 12
                  else if ¬ pm ∧ h = 12 then 0 else h
      hour * 60 + minute

/-- `sorted(list(set(showtimes)), key=self._time_to_minutes)` from
`_parse_movies` (lines 305-307): deduplicate, then sort ascending by
minutes since midnight. -/
def sort_showtimes (showtimes : List String) : List String :=
  showtimes.dedup.mergeSort
    (fun a b => decide (time_to_minutes a ≤ time_to_minutes b))

/-- The digits of an hour `1..12` with no leading zero, as in the
canonical `H:MM AM|PM` showtime form. -/
def hour_chars (h : Nat) : List Char :=
  if h < 10 then [digitChar h] else [digitChar (h / 10), digitChar h]

/-- A canonical showtime string `H:MM AM|PM` (uppercase period, no
leading zero on the hour, two-digit minutes). -/
def render_time (h mm : Nat) (pm : Bool) : String :=
  ⟨hour_chars h ++ ':' :: pad2 mm ++
    ' ' :: (if pm then ['P', 'M'] else ['A', 'M'])⟩

/-- `Movie._is_valid_time`: full match of `^\d{1,2}:\d{2}\s*(AM|PM)$`. -/
def valid_ampm_end (cs : List Char) : Bool :=
  match cs with
  | ['A', 'M'] => true
  | ['P', 'M'] => true
  | _ => false

/-- Tail of `_is_valid_time` after the hour digits: `:\d{2}\s*(AM|PM)$`. -/
def valid_time_tail (cs : List Char) : Bool :=
  match cs with
  | ':' :: m1 :: m2 :: rest =>
      m1.isDigit && m2.isDigit && valid_ampm_end (rest.dropWhile isPySpace)
  | _ => false

/-- `Movie._is_valid_time` on a string. -/
def is_valid_time (time_str : String) : Bool :=
  match time_str.data with
  | c1 :: rest =>
      c1.isDigit &&
        (match rest with
         | c2 :: rest2 =>
             if c2.isDigit then valid_time_tail rest2 else valid_time_tail rest
         | [] => false)
  | [] => false

/-- `Movie.is_valid` from `schema.py`. -/
def Movie.is_valid (m : Movie) : Bool :=
  m.name != "" && m.slug != "" && decide (0 < m.showtimes.length) &&
    m.showtimes.all is_valid_time

/-- `AMCShowtimeScraper._validate_movie` (with the class constants
`VALIDATE_TIME_FORMAT = True`). -/
def validate_movie (m : Movie) : Bool :=
  m.is_valid && (m.showtimes.filter (fun t => !is_valid_time t)).isEmpty

/-- `AMCShowtimeScraper.scrape_date`, given the value returned by (or the
exception escaping from) `_fetch_with_retry` and the pure section parser
(`_parse_movies` yields `(name, slug, runtime, rating, showtimes)`
tuples).  `MIN_MOVIES_PER_DAY = 1`. -/
def scrape_date (fetched : Except String (Option String))
    (parse : String → List (String × String × Option Int × String × List String))
    (date theater_name fetch_time : String) : Except String DailyShowtimes :=
  match fetched with
  | .error e => .error e
  | .ok rsc =>
    let rsc_data := rsc.getD ""
    if rsc_data = "" then
      .ok ⟨date, theater_name, [], fetch_time, false,
        some "Failed to fetch data after all retries"⟩
    else
      let movie_data := parse rsc_data
      if movie_data.isEmpty then
        .ok ⟨date, theater_name, [], fetch_time, false,
          some "No movies found in response"⟩
      else
        let movies := (movie_data.map
          (fun md => Movie.mk md.1 md.2.1 md.2.2.1 md.2.2.2.1 md.2.2.2.2)).filter
          validate_movie
        let success := decide (1 ≤ movies.length)
        .ok ⟨date, theater_name, movies, fetch_time, success,
          if success then none else some "Fewer movies than expected"⟩

/-! ## Delivery dispatcher (`telegram_notifier.py`)

`TelegramNotifier.send_notifications_with_deduplication`, with the
Telegram transport abstracted as a `send_ok` oracle telling whether
`_send_message(message, chat_id)` returns `True` for a given event's
message and chat.  `DEFAULT_RETENTION_DAYS = 30`. -/

/-- The `stats` dictionary of `send_notifications_with_deduplication`. -/
structure DispatchStats where
  sent : Nat := 0
  failed : Nat := 0
  skipped : Nat := 0
  updated : Nat := 0
deriving DecidableEq, Repr

/-- `TelegramNotifier._filter_qa_events`. -/
def filter_qa_events (events : List EventData) : List EventData :=
  events.filter (fun e => decide (e.event_type = EventType.qa))

/-- First loop of `send_notifications_with_deduplication`: consult the
store for every Q&A event, counting `skipped`/`updated` and collecting
`events_to_notify` as `(event, changes is not None)` pairs. -/
def dedup_decisions (store : Store) (qa_events : List EventData) :
    DispatchStats × List (EventData × Bool) :=
  qa_events.foldl
    (fun acc event =>
      match should_notify store event with
      | (false, _) => ({ acc.1 with skipped := acc.1.skipped + 1 }, acc.2)
      | (true, changes) =>
          let stats := if changes.isSome then
              { acc.1 with updated := acc.1.updated + 1 }
            else acc.1
          (stats, acc.2 ++ [(event, changes.isSome)]))
    ({}, [])

/-- Second loop of `send_notifications_with_deduplication`: attempt
delivery of each pending event to every chat id; `failed` grows by one
per rejecting chat; the event is marked notified and counted `sent`
only when `success` survived all chats (no chat rejected). -/
def deliver_events (send_ok : EventData → String → Bool)
    (chat_ids : List String) (now : String)
    (init : DispatchStats × Store) (to_notify : List (EventData × Bool)) :
    DispatchStats × Store :=
  to_notify.foldl
    (fun acc p =>
      let failures := (chat_ids.filter (fun c => !send_ok p.1 c)).length
      let stats := { acc.1 with failed := acc.1.failed + failures }
      if failures = 0 then
        ({ stats with sent := stats.sent + 1 },
          mark_as_notified acc.2 p.1 now p.2)
      else (stats, acc.2)) init

/-- `TelegramNotifier.send_notifications_with_deduplication` on an
error-free store, returning the final `stats` and the store state. -/
def send_notifications_with_deduplication
    (send_ok : EventData → String → Bool) (events : List EventData)
    (chat_ids : List String) (store : Store) (now : String)
    (today : PyDate) : DispatchStats × Store :=
  let qa_events := filter_qa_events events
  if qa_events.isEmpty then ({}, store)
  else
    let dec := dedup_decisions store qa_events
    if dec.2.isEmpty then
      (dec.1, (cleanup_old_entries store today 30).1)
    else
      let delivered := deliver_events send_ok chat_ids now (dec.1, store) dec.2
      (delivered.1, (cleanup_old_entries delivered.2 today 30).1)

/-! ## Concrete fixtures used by witnesses and counterexamples -/

/-- A Q&A event (from the repository's test data). -/
def ev_qa : EventData :=
  { movie_name := "Die My Love Live Q and A"
    theater := "AMC Lincoln Square 13"
    date := "2025-11-06"
    slug := "die-my-love-live-q-a"
    event_type := .qa
    showtimes := ["7:00 PM", "9:30 PM", "11:00 PM"]
    runtime := some 130
    rating := "R" }

/-- A stored record for `ev_qa` with the old showtime set. -/
def rec_stored : NotificationRecord :=
  { theater := "AMC Lincoln Square 13"
    date := "2025-11-06"
    movie_name := "Die My Love Live Q and A"
    movie_slug := "die-my-love-live-q-a"
    event_type := .qa
    showtimes := ["7:00 PM", "9:30 PM"]
    runtime := some 130
    rating := "R"
    first_notified_at := "2025-11-01T10:00:00"
    last_updated_at := "2025-11-01T10:00:00"
    notification_count := 1 }

/-- A one-row store holding `rec_stored` under `ev_qa`'s id. -/
def store_one : Store := [(generate_notification_id ev_qa, rec_stored)]

/-- An event of a non-Q&A category. -/
def ev_non_qa : EventData :=
  { movie_name := "Some Movie Sneak Peek"
    theater := "AMC Empire 25"
    date := "2025-11-07"
    slug := "some-movie-sneak-peek"
    event_type := .sneak_peek
    showtimes := ["8:00 PM"] }

/-- Transport oracle: chat `"chat2"` accepts, every other chat rejects. -/
def send_chat2_only : EventData → String → Bool := fun _ chat => chat == "chat2"

/-- A fixed current date for cleanup evaluation. -/
def today_fix : PyDate := ⟨2025, 11, 6⟩

/-- Attempt oracle: the first attempt is rate limited, the rest time out. -/
def outcomes_rate_limited : Nat → AttemptOutcome :=
  fun a => if a = 0 then .httpError 429 else .timeout

/-- Attempt oracle: every attempt times out. -/
def outcomes_all_timeout : Nat → AttemptOutcome := fun _ => .timeout

/-- A three-row store: one stale record, one dated today, one future. -/
def store_retention : Store :=
  [("a", { rec_stored with date := "2025-09-01" }),
   ("b", { rec_stored with date := "2025-11-06" }),
   ("c", { rec_stored with date := "2025-12-25" })]

/-! ### Order facts about digit rendering -/

theorem digitChar_eq_of_mod (a b : Nat) (h : a % 10 = b % 10) :
    digitChar a = digitChar b := by
  unfold digitChar; rw [h]

theorem digitChar_lt_aux : ∀ a < 10, ∀ b < 10, a < b →
    Char.ofNat (48 + a) < Char.ofNat (48 + b) := by decide

theorem digitChar_lt {a b : Nat} (h : a % 10 < b % 10) :
    digitChar a < digitChar b := by
  unfold digitChar
  exact digitChar_lt_aux (a % 10) (Nat.mod_lt _ (by omega)) (b % 10)
    (Nat.mod_lt _ (by omega)) h

/-- Lexicographic strict order on char lists, prepending a common prefix. -/
theorem lex_append_left (p : List Char) {xs ys : List Char}
    (h : List.Lex (· < ·) xs ys) :
    List.Lex (· < ·) (p ++ xs) (p ++ ys) := by
  induction p with
  | nil => exact h
  | cons c cs ih => exact List.Lex.cons ih

/-- Lexicographic strict order propagates through appending arbitrary
tails when the compared segments have equal length. -/
theorem lex_append_right {xs ys : List Char} (t1 t2 : List Char)
    (hlen : xs.length = ys.length) (h : List.Lex (· < ·) xs ys) :
    List.Lex (· < ·) (xs ++ t1) (ys ++ t2) := by
  induction h with
  | nil => simp at hlen
  | @rel a as b bs hab => exact List.Lex.rel hab
  | @cons a as bs _ ih =>
      exact List.Lex.cons (ih (by simpa using hlen))

theorem pad2_lt {a b : Nat} (hab : a < b) (hb : b < 100) :
    List.Lex (· < ·) (pad2 a) (pad2 b) := by
  unfold pad2
  have h : a / 10 < b / 10 ∨ (a / 10 = b / 10 ∧ a % 10 < b % 10) := by omega
  rcases h with h | ⟨h1, h2⟩
  · exact List.Lex.rel (digitChar_lt (by omega))
  · rw [digitChar_eq_of_mod (a / 10) (b / 10) (by omega)]
    exact List.Lex.cons (List.Lex.rel (digitChar_lt h2))

theorem pad4_lt {a b : Nat} (hab : a < b) (hb : b < 10000) :
    List.Lex (· < ·) (pad4 a) (pad4 b) := by
  unfold pad4
  have h : a / 1000 < b / 1000 ∨
      (a / 1000 = b / 1000 ∧ a / 100 % 10 < b / 100 % 10) ∨
      (a / 1000 = b / 1000 ∧ a / 100 % 10 = b / 100 % 10 ∧
        a / 10 % 10 < b / 10 % 10) ∨
      (a / 1000 = b / 1000 ∧ a / 100 % 10 = b / 100 % 10 ∧
        a / 10 % 10 = b / 10 % 10 ∧ a % 10 < b % 10) := by omega
  rcases h with h | ⟨h1, h2⟩ | ⟨h1, h2, h3⟩ | ⟨h1, h2, h3, h4⟩
  · exact List.Lex.rel (digitChar_lt (by omega))
  · rw [digitChar_eq_of_mod (a / 1000) (b / 1000) (by omega)]
    exact List.Lex.cons (List.Lex.rel (digitChar_lt (by omega)))
  · rw [digitChar_eq_of_mod (a / 1000) (b / 1000) (by omega),
      digitChar_eq_of_mod (a / 100) (b / 100) (by omega)]
    exact List.Lex.cons (List.Lex.cons (List.Lex.rel (digitChar_lt (by omega))))
  · rw [digitChar_eq_of_mod (a / 1000) (b / 1000) (by omega),
      digitChar_eq_of_mod (a / 100) (b / 100) (by omega),
      digitChar_eq_of_mod (a / 10) (b / 10) (by omega)]
    exact List.Lex.cons (List.Lex.cons (List.Lex.cons
      (List.Lex.rel (digitChar_lt h4))))

theorem isoDate_lt_of_lex {D E : PyDate}
    (h : List.Lex (· < ·) (isoChars D) (isoChars E)) : isoDate D < isoDate E := by
  rw [String.lt_iff_toList_lt]
  have : (isoDate D).toList = isoChars D := rfl
  rw [this]
  have : (isoDate E).toList = isoChars E := rfl
  rw [this]
  exact h

/-! ### The previous day strictly decreases the ISO string -/

theorem daysInMonth_pos (y m : Nat) : 1 ≤ daysInMonth y m := by
  unfold daysInMonth
  split <;> [split; split] <;> omega

theorem daysInMonth_le (y m : Nat) : daysInMonth y m ≤ 31 := by
  unfold daysInMonth
  split <;> [split; split] <;> omega

theorem daysInMonth_december (y : Nat) : daysInMonth y 12 = 31 := by
  simp [daysInMonth]

theorem prevDay_valid {D : PyDate} (hD : ValidDate D) (hy : 2 ≤ D.y) :
    ValidDate (prevDay D) := by
  obtain ⟨hm1, hm2, hd1, hd2, hy1⟩ := hD
  unfold prevDay
  split
  · exact ⟨hm1, hm2, by show 1 ≤ D.d - 1; omega,
      by show D.d - 1 ≤ daysInMonth D.y D.m; omega, hy1⟩
  · split
    · exact ⟨by show 1 ≤ D.m - 1; omega, by show D.m - 1 ≤ 12; omega,
        daysInMonth_pos _ _, le_refl _, hy1⟩
    · exact ⟨by show (1 : Nat) ≤ 12; omega, by show (12 : Nat) ≤ 12; omega,
        by show (1 : Nat) ≤ 31; omega,
        by show 31 ≤ daysInMonth (D.y - 1) 12; rw [daysInMonth_december],
        by show 1 ≤ D.y - 1; omega⟩

theorem prevDay_y_ge (D : PyDate) : D.y - 1 ≤ (prevDay D).y := by
  unfold prevDay
  split
  · show D.y - 1 ≤ D.y; omega
  split
  · show D.y - 1 ≤ D.y; omega
  · show D.y - 1 ≤ D.y - 1; omega

theorem prevDay_y_le (D : PyDate) : (prevDay D).y ≤ D.y := by
  unfold prevDay
  split
  · show D.y ≤ D.y; omega
  split
  · show D.y ≤ D.y; omega
  · show D.y - 1 ≤ D.y; omega

theorem isoDate_prevDay_lt {D : PyDate} (hD : ValidDate D)
    (hy1 : 1001 ≤ D.y) (hy2 : D.y ≤ 9999) : isoDate (prevDay D) < isoDate D := by
  obtain ⟨hm1, hm2, hd1, hd2, _⟩ := hD
  have hd31 : D.d ≤ 31 := le_trans hd2 (daysInMonth_le _ _)
  apply isoDate_lt_of_lex
  unfold isoChars prevDay
  split
  · -- same year and month, day decreases
    simp only
    apply lex_append_left
    apply List.Lex.cons
    apply lex_append_left
    apply List.Lex.cons
    exact pad2_lt (by omega) (by omega)
  · split
    · -- same year, month decreases
      simp only
      apply lex_append_left
      apply List.Lex.cons
      exact lex_append_right _ _ (by simp [pad2]) (pad2_lt (by omega) (by omega))
    · -- year decreases
      simp only
      exact lex_append_right _ _ (by simp [pad4]) (pad4_lt (by omega) (by omega))

theorem subDays_valid {D : PyDate} (hD : ValidDate D) :
    ∀ k, 1000 + k ≤ D.y →
      ValidDate (subDays D k) ∧ D.y - k ≤ (subDays D k).y ∧ (subDays D k).y ≤ D.y
  | 0, _ => ⟨hD, by simp [subDays], by simp [subDays]⟩
  | k + 1, hk => by
    obtain ⟨hv, hge, hle⟩ := subDays_valid hD k (by omega)
    refine ⟨prevDay_valid hv (by omega), ?_, ?_⟩
    · have := prevDay_y_ge (subDays D k)
      simp only [subDays]; omega
    · have := prevDay_y_le (subDays D k)
      simp only [subDays]; omega

/-- The cutoff date `today − retentionDays` renders to an ISO string that
is lexicographically at most today's ISO string. -/
theorem isoDate_subDays_le {D : PyDate} (hD : ValidDate D) (hy2 : D.y ≤ 9999) :
    ∀ k, 1000 + k ≤ D.y → isoDate (subDays D k) ≤ isoDate D
  | 0, _ => le_refl _
  | k + 1, hk => by
    obtain ⟨hv, hge, hle⟩ := subDays_valid hD k (by omega)
    have h1 : isoDate (subDays D (k + 1)) < isoDate (subDays D k) := by
      simp only [subDays]
      exact isoDate_prevDay_lt hv (by omega) (by omega)
    exact le_trans (le_of_lt h1) (isoDate_subDays_le hD hy2 k (by omega))

/-! ## Bridging lemmas: executable comparisons vs the ambient orders -/

theorem chars_lt_iff : ∀ as bs : List Char,
    chars_lt as bs = true ↔ List.Lex (· < ·) as bs
  | [], [] => by
      simp only [chars_lt, Bool.false_eq_true, false_iff]
      intro h; cases h
  | [], _ :: _ => by
      simp only [chars_lt, true_iff]
      exact List.Lex.nil
  | _ :: _, [] => by
      simp only [chars_lt, Bool.false_eq_true, false_iff]
      intro h; cases h
  | a :: as, b :: bs => by
      simp only [chars_lt]
      split
      · next hab => exact iff_of_true rfl (List.Lex.rel hab)
      split
      · next hab hba =>
          simp only [Bool.false_eq_true, false_iff]
          intro h
          cases h with
          | rel h => exact hab h
          | cons h => exact absurd hba (lt_irrefl a)
      · next hab hba =>
          have heq : a = b := le_antisymm (not_lt.mp hba) (not_lt.mp hab)
          subst heq
          rw [chars_lt_iff as bs]
          constructor
          · exact List.Lex.cons
          · intro h
            cases h with
            | rel h => exact absurd h hab
            | cons h => exact h

theorem str_lt_iff (a b : String) : str_lt a b = true ↔ a < b := by
  rw [String.lt_iff_toList_lt]
  exact chars_lt_iff a.data b.data

theorem str_le_iff (a b : String) : str_le a b = true ↔ a ≤ b := by
  have h1 : str_le a b = true ↔ ¬ str_lt b a = true := by
    unfold str_le; cases str_lt b a <;> simp
  rw [h1, str_lt_iff, not_lt]

theorem contains_iff_mem (l : List String) (x : String) :
    l.contains x = true ↔ x ∈ l := by
  simp [List.contains, List.elem_iff]

theorem py_set_eq_iff (l1 l2 : List String) :
    py_set_eq l1 l2 = true ↔ l1.toFinset = l2.toFinset := by
  unfold py_set_eq
  rw [Bool.and_eq_true, List.all_eq_true, List.all_eq_true]
  constructor
  · rintro ⟨h1, h2⟩
    apply Finset.ext
    intro x
    simp only [List.mem_toFinset]
    exact ⟨fun hx => (contains_iff_mem _ _).mp (h1 x hx),
      fun hx => (contains_iff_mem _ _).mp (h2 x hx)⟩
  · intro h
    have hmem : ∀ x, x ∈ l1 ↔ x ∈ l2 := by
      intro x
      rw [← List.mem_toFinset, ← List.mem_toFinset (l := l2), h]
    exact ⟨fun x hx => (contains_iff_mem _ _).mpr ((hmem x).mp hx),
      fun x hx => (contains_iff_mem _ _).mpr ((hmem x).mpr hx)⟩

theorem py_set_eq_refl (l : List String) : py_set_eq l l = true :=
  (py_set_eq_iff l l).mpr rfl

theorem str_le_trans_bool : ∀ a b c : String,
    str_le a b = true → str_le b c = true → str_le a c = true := by
  intro a b c h1 h2
  rw [str_le_iff] at *
  exact le_trans h1 h2

theorem str_le_total_bool : ∀ a b : String,
    (str_le a b || str_le b a) = true := by
  intro a b
  rw [Bool.or_eq_true, str_le_iff, str_le_iff]
  exact le_total a b

theorem py_sorted_set_sorted (l : List String) :
    (py_sorted_set l).Sorted (· ≤ ·) := by
  have h := List.sorted_mergeSort str_le_trans_bool str_le_total_bool l.dedup
  exact h.imp (fun hab => (str_le_iff _ _).mp hab)

theorem py_sorted_set_toFinset (l : List String) :
    (py_sorted_set l).toFinset = l.toFinset := by
  apply Finset.ext
  intro x
  simp [py_sorted_set, List.mem_toFinset, List.mem_dedup]

theorem py_sorted_set_nodup (l : List String) : (py_sorted_set l).Nodup :=
  ((List.mergeSort_perm l.dedup str_le).nodup_iff).mpr (List.nodup_dedup l)

theorem filter_not_contains_toFinset (l1 l2 : List String) :
    (l2.filter (fun t => !l1.contains t)).toFinset =
      l2.toFinset \ l1.toFinset := by
  apply Finset.ext
  intro x
  simp only [List.mem_toFinset, List.mem_filter, Finset.mem_sdiff,
    Bool.not_eq_true', ← Bool.not_eq_true, contains_iff_mem]

theorem filter_contains_toFinset (l1 l2 : List String) :
    (l2.filter (fun t => l1.contains t)).toFinset =
      l2.toFinset ∩ l1.toFinset := by
  apply Finset.ext
  intro x
  simp only [List.mem_toFinset, List.mem_filter, Finset.mem_inter,
    contains_iff_mem]

/-! ## Store lemmas -/

theorem db_lookup_upsert (id : String) (r : NotificationRecord) :
    ∀ store : Store, db_lookup id (db_upsert id r store) = some r
  | [] => by simp [db_upsert, db_lookup]
  | (k, v) :: rest => by
      by_cases h : k = id
      · simp [db_upsert, db_lookup, h]
      · simp [db_upsert, db_lookup, h, db_lookup_upsert id r rest]

theorem db_lookup_modify (id : String)
    (f : NotificationRecord → NotificationRecord) :
    ∀ store : Store,
      db_lookup id (db_modify id f store) = (db_lookup id store).map f
  | [] => by simp [db_modify, db_lookup]
  | (k, v) :: rest => by
      by_cases h : k = id
      · simp [db_modify, db_lookup, h]
      · simp [db_modify, db_lookup, h, db_lookup_modify id f rest]

theorem should_notify_of_lookup_same (store : Store) (event : EventData)
    (r : NotificationRecord)
    (hl : db_lookup (generate_notification_id event) store = some r)
    (hs : r.showtimes = event.showtimes) :
    should_notify store event = (false, none) := by
  unfold should_notify should_notify_db
  rw [hl]
  simp [hs, py_set_eq_refl]

theorem db_lookup_mark_false (store : Store) (event : EventData)
    (now : String) :
    db_lookup (generate_notification_id event)
        (mark_as_notified store event now false) = some
      { theater := event.theater
        date := event.date
        movie_name := event.movie_name
        movie_slug := event.slug
        event_type := event.event_type
        showtimes := event.showtimes
        runtime := event.runtime
        rating := event.rating
        first_notified_at := now
        last_updated_at := now
        notification_count := 1 } := by
  unfold mark_as_notified
  simp only [Bool.false_eq_true, if_false]
  exact db_lookup_upsert _ _ store

theorem db_lookup_mark_true (store : Store) (event : EventData)
    (now : String) (r : NotificationRecord)
    (hl : db_lookup (generate_notification_id event) store = some r) :
    db_lookup (generate_notification_id event)
        (mark_as_notified store event now true) = some
      { r with
        showtimes := event.showtimes
        last_updated_at := now
        notification_count := r.notification_count + 1 } := by
  unfold mark_as_notified
  simp only [if_true]
  rw [db_lookup_modify, hl]
  rfl

/-! ## Claim theorems -/

/-- C3: a storage error during `should_notify` makes the store fail open,
returning the New decision `(True, None)` instead of raising; a storage
error during `mark_as_notified` is re-raised to the caller and is never
converted into a silent success. -/
theorem store_error_fail_open_and_write_raises :
    (∀ (e : String) (event : EventData),
      should_notify_db (.error e) event = (true, none)) ∧
    (∀ (e : String) (store : Store) (event : EventData) (now : String)
        (is_update : Bool),
      mark_as_notified_db (some e) store event now is_update = .error e ∧
      ∀ s : Store,
        mark_as_notified_db (some e) store event now is_update ≠ .ok s) := by
  refine ⟨fun e event => rfl, fun e store event now u => ⟨rfl, fun s h => ?_⟩⟩
  exact Except.noConfusion h

/-- C4: when the event's notification id is present in the store and the
stored showtime set differs from the event's, `should_notify` returns a
Changed decision whose `added` list is the sorted (duplicate-free) set
difference new minus old, whose `removed` list is the sorted old minus
new, and whose `unchanged` list is the sorted intersection of new and
old. -/
theorem should_notify_changed_diff (store : Store) (event : EventData)
    (r : NotificationRecord)
    (hfound : db_lookup (generate_notification_id event) store = some r)
    (hne : r.showtimes.toFinset ≠ event.showtimes.toFinset) :
    ∃ c : ShowtimeChange,
      should_notify store event = (true, some c) ∧
      c.added.Sorted (· ≤ ·) ∧ c.added.Nodup ∧
      c.added.toFinset = event.showtimes.toFinset \ r.showtimes.toFinset ∧
      c.removed.Sorted (· ≤ ·) ∧ c.removed.Nodup ∧
      c.removed.toFinset = r.showtimes.toFinset \ event.showtimes.toFinset ∧
      c.unchanged.Sorted (· ≤ ·) ∧ c.unchanged.Nodup ∧
      c.unchanged.toFinset =
        event.showtimes.toFinset ∩ r.showtimes.toFinset := by
  have hpe : py_set_eq r.showtimes event.showtimes = false := by
    rw [Bool.eq_false_iff]
    intro h
    exact hne ((py_set_eq_iff _ _).mp h)
  refine ⟨⟨py_sorted_set
        (event.showtimes.filter (fun t => !r.showtimes.contains t)),
      py_sorted_set
        (r.showtimes.filter (fun t => !event.showtimes.contains t)),
      py_sorted_set
        (event.showtimes.filter (fun t => r.showtimes.contains t))⟩,
    ?_, py_sorted_set_sorted _, py_sorted_set_nodup _, ?_,
    py_sorted_set_sorted _, py_sorted_set_nodup _, ?_,
    py_sorted_set_sorted _, py_sorted_set_nodup _, ?_⟩
  · unfold should_notify should_notify_db
    rw [hfound]
    simp [hpe]
  · rw [py_sorted_set_toFinset, filter_not_contains_toFinset]
  · rw [py_sorted_set_toFinset, filter_not_contains_toFinset]
  · rw [py_sorted_set_toFinset, filter_contains_toFinset]

/-- C4 witness: a concrete store holding showtimes 7:00 PM and 9:30 PM
against an event adding 11:00 PM. -/
theorem should_notify_changed_diff_witness :
    db_lookup (generate_notification_id ev_qa) store_one = some rec_stored ∧
    ∃ c : ShowtimeChange,
      should_notify store_one ev_qa = (true, some c) ∧
      c.added.Sorted (· ≤ ·) ∧ c.added.Nodup ∧
      c.added.toFinset =
        ev_qa.showtimes.toFinset \ rec_stored.showtimes.toFinset ∧
      c.removed.Sorted (· ≤ ·) ∧ c.removed.Nodup ∧
      c.removed.toFinset =
        rec_stored.showtimes.toFinset \ ev_qa.showtimes.toFinset ∧
      c.unchanged.Sorted (· ≤ ·) ∧ c.unchanged.Nodup ∧
      c.unchanged.toFinset =
        ev_qa.showtimes.toFinset ∩ rec_stored.showtimes.toFinset :=
  ⟨rfl, should_notify_changed_diff store_one ev_qa rec_stored rfl
    (fun h => absurd ((py_set_eq_iff _ _).mpr h) (by decide))⟩

/-- C5: running `should_notify`, then `mark_as_notified` with the
`is_update` flag the dispatcher derives from the decision, then
`should_notify` again on the same unchanged event yields the Unchanged
decision `(False, None)`. -/
theorem mark_then_should_notify_unchanged (store : Store)
    (event : EventData) (now : String) :
    should_notify
      (mark_as_notified store event now
        (should_notify store event).2.isSome) event = (false, none) := by
  rcases hl : db_lookup (generate_notification_id event) store with _ | r
  · have hsn : should_notify store event = (true, none) := by
      unfold should_notify should_notify_db
      rw [hl]
      rfl
    rw [hsn]
    exact should_notify_of_lookup_same _ _ _
      (db_lookup_mark_false store event now) rfl
  · by_cases hpe : py_set_eq r.showtimes event.showtimes = true
    · have hsn : should_notify store event = (false, none) := by
        unfold should_notify should_notify_db
        rw [hl]
        simp [hpe]
      rw [hsn]
      exact should_notify_of_lookup_same _ _ _
        (db_lookup_mark_false store event now) rfl
    · have hsn2 : (should_notify store event).2.isSome = true := by
        unfold should_notify should_notify_db
        rw [hl]
        simp [hpe]
      rw [hsn2]
      exact should_notify_of_lookup_same _ _ _
        (db_lookup_mark_true store event now r hl) rfl

/-- C1: the dispatcher evaluated at a failing input.  One new Q&A event
is dispatched to two chats; `"chat1"` rejects the message and `"chat2"`
accepts it.  At least one destination accepted, so the claim (and the
source's own comment) require `sent = 1` with the store marked; the code
instead requires every destination to succeed, yielding `sent = 0`,
`failed = 1`, and an unmarked (still empty) store. -/
theorem dispatch_requires_all_destinations :
    send_notifications_with_deduplication send_chat2_only [ev_qa]
        ["chat1", "chat2"] [] "2025-11-06T12:00:00" today_fix =
      ({ sent := 0, failed := 1, skipped := 0, updated := 0 }, []) := by
  decide

/-- C10: the deduplicating dispatcher processes only Q&A events: removing
a non-Q&A event from anywhere in the input list changes nothing — not the
statistics, not the store — so such an event contributes no store lookup,
store write, delivery attempt, or count. -/
theorem non_qa_events_ignored (send_ok : EventData → String → Bool)
    (pre post : List EventData) (e : EventData) (chat_ids : List String)
    (store : Store) (now : String) (today : PyDate)
    (h : e.event_type ≠ EventType.qa) :
    send_notifications_with_deduplication send_ok (pre ++ e :: post)
        chat_ids store now today =
      send_notifications_with_deduplication send_ok (pre ++ post)
        chat_ids store now today := by
  have hf : filter_qa_events (pre ++ e :: post) =
      filter_qa_events (pre ++ post) := by
    unfold filter_qa_events
    simp [List.filter_append, List.filter_cons, h]
  unfold send_notifications_with_deduplication
  rw [hf]

/-- C10 witness: a Sneak Peek event alone in the input behaves exactly
like an empty input. -/
theorem non_qa_events_ignored_witness :
    send_notifications_with_deduplication send_chat2_only [ev_non_qa]
        ["chat2"] [] "t" today_fix =
      send_notifications_with_deduplication send_chat2_only []
        ["chat2"] [] "t" today_fix :=
  non_qa_events_ignored send_chat2_only [] [] ev_non_qa ["chat2"] [] "t"
    today_fix (by decide)

/-- C7: `cleanup_old_entries` keeps exactly the records whose ISO date
string is not lexicographically less than the cutoff `today − days`,
returns the number of deleted records, and — because the cutoff's ISO
string is at most today's — never deletes a record dated today or in the
future. -/
theorem cleanup_old_entries_spec (store : Store) (today : PyDate)
    (days : Nat) (hv : ValidDate today) (hy : 1000 + days ≤ today.y)
    (hy2 : today.y ≤ 9999) :
    (∀ p : String × NotificationRecord,
      p ∈ (cleanup_old_entries store today days).1 ↔
        p ∈ store ∧ ¬ p.2.date < isoDate (subDays today days)) ∧
    (cleanup_old_entries store today days).2 +
        (cleanup_old_entries store today days).1.length = store.length ∧
    (∀ p ∈ store, isoDate today ≤ p.2.date →
      p ∈ (cleanup_old_entries store today days).1) := by
  have hcut : isoDate (subDays today days) ≤ isoDate today :=
    isoDate_subDays_le hv hy2 days hy
  have h1 : ∀ p : String × NotificationRecord,
      p ∈ (cleanup_old_entries store today days).1 ↔
        p ∈ store ∧ ¬ p.2.date < isoDate (subDays today days) := by
    intro p
    unfold cleanup_old_entries
    simp [List.mem_filter]
  refine ⟨h1, ?_, ?_⟩
  · unfold cleanup_old_entries
    exact Eq.symm (List.length_eq_length_filter_add
      (fun p => decide (p.2.date < isoDate (subDays today days))))
  · intro p hp hge
    exact (h1 p).mpr ⟨hp, not_lt.mpr (le_trans hcut hge)⟩

/-- C7 witness: retention 30 days from 2025-11-06 (cutoff 2025-10-07)
over a store holding a stale record, one dated today, and a future one. -/
theorem cleanup_old_entries_spec_witness :
    (∀ p : String × NotificationRecord,
      p ∈ (cleanup_old_entries store_retention today_fix 30).1 ↔
        p ∈ store_retention ∧
          ¬ p.2.date < isoDate (subDays today_fix 30)) ∧
    (cleanup_old_entries store_retention today_fix 30).2 +
        (cleanup_old_entries store_retention today_fix 30).1.length =
      store_retention.length ∧
    (∀ p ∈ store_retention, isoDate today_fix ≤ p.2.date →
      p ∈ (cleanup_old_entries store_retention today_fix 30).1) :=
  cleanup_old_entries_spec store_retention today_fix 30 (by decide)
    (by decide) (by decide)

/-! ## Fetch engine lemmas -/

theorem delays_index_ok {retry_delays : List Nat} (hnd : retry_delays ≠ [])
    (attempt : Nat) : ∃ d, delays_index retry_delays attempt = .ok d := by
  unfold delays_index
  have hlen : 0 < retry_delays.length := List.length_pos.mpr hnd
  rcases h : retry_delays.get? (min attempt (retry_delays.length - 1))
    with _ | d
  · rw [List.get?_eq_none] at h
    omega
  · exact ⟨d, rfl⟩

theorem delays_last_ok {retry_delays : List Nat} (hnd : retry_delays ≠ []) :
    ∃ d, delays_last retry_delays = .ok d := by
  unfold delays_last
  rcases h : retry_delays.getLast? with _ | d
  · exact absurd (List.getLast?_eq_none_iff.mp h) hnd
  · exact ⟨d, rfl⟩

theorem fetch_go_all_fail (max_retries : Nat) (retry_delays : List Nat)
    (outcomes : Nat → AttemptOutcome) (hnd : retry_delays ≠ [])
    (hfail : ∀ (a : Nat) (body : String), outcomes a ≠ .success body) :
    ∀ (fuel attempt : Nat) (stats : ScrapeStats) (sleeps : List Nat),
      (fetch_go max_retries retry_delays outcomes attempt fuel stats
          sleeps).result = .ok none ∧
      (fetch_go max_retries retry_delays outcomes attempt fuel stats
          sleeps).stats.total_requests = stats.total_requests + fuel ∧
      (fetch_go max_retries retry_delays outcomes attempt fuel stats
          sleeps).stats.failed_requests = stats.failed_requests + 1 ∧
      (fetch_go max_retries retry_delays outcomes attempt fuel stats
          sleeps).stats.successful_requests = stats.successful_requests
  | 0, attempt, stats, sleeps => by
      simp [fetch_go]
  | fuel + 1, attempt, stats, sleeps => by
      have IH := fetch_go_all_fail max_retries retry_delays outcomes hnd
        hfail fuel
      have step : ∀ sl : List Nat,
          (fetch_go max_retries retry_delays outcomes (attempt + 1) fuel
              { stats with total_requests := stats.total_requests + 1 }
              sl).result = .ok none ∧
          (fetch_go max_retries retry_delays outcomes (attempt + 1) fuel
              { stats with total_requests := stats.total_requests + 1 }
              sl).stats.total_requests = stats.total_requests + (fuel + 1) ∧
          (fetch_go max_retries retry_delays outcomes (attempt + 1) fuel
              { stats with total_requests := stats.total_requests + 1 }
              sl).stats.failed_requests = stats.failed_requests + 1 ∧
          (fetch_go max_retries retry_delays outcomes (attempt + 1) fuel
              { stats with total_requests := stats.total_requests + 1 }
              sl).stats.successful_requests = stats.successful_requests := by
        intro sl
        have h := IH (attempt + 1)
          { stats with total_requests := stats.total_requests + 1 } sl
        dsimp only at h
        exact ⟨h.1, by omega, h.2.2.1, h.2.2.2⟩
      rcases houtcome : outcomes attempt with body | _ | status | msg
      · exact absurd houtcome (hfail attempt body)
      · -- timeout
        simp only [fetch_go, houtcome]
        by_cases hlt : attempt + 1 < max_retries
        · obtain ⟨d, hd⟩ := delays_index_ok hnd attempt
          simp only [hlt, if_true, hd]
          exact step _
        · simp only [hlt, if_false]
          exact step _
      · -- httpError
        simp only [fetch_go, houtcome]
        by_cases hst : status = 429
        · obtain ⟨l, hl⟩ := delays_last_ok hnd
          simp only [hst, if_true, hl, Except.map]
          by_cases hlt : attempt + 1 < max_retries
          · obtain ⟨d, hd⟩ := delays_index_ok hnd attempt
            simp only [hlt, if_true, hd]
            exact step _
          · simp only [hlt, if_false]
            exact step _
        · simp only [hst, if_false]
          by_cases hlt : attempt + 1 < max_retries
          · obtain ⟨d, hd⟩ := delays_index_ok hnd attempt
            simp only [hlt, if_true, hd]
            exact step _
          · simp only [hlt, if_false]
            exact step _
      · -- requestError
        simp only [fetch_go, houtcome]
        by_cases hlt : attempt + 1 < max_retries
        · obtain ⟨d, hd⟩ := delays_index_ok hnd attempt
          simp only [hlt, if_true, hd]
          exact step _
        · simp only [hlt, if_false]
          exact step _

/-- C2: over any nonempty configured delay list, a work unit whose every
attempt fails gets exactly `max_retries` attempts (the shared total
counter grows by `max_retries`), the failed counter grows by exactly one,
the success counter is untouched, no exception escapes (the result is a
value, not an error), and `scrape_date` hands the caller a failed
`DailyShowtimes` with no movies and the descriptive message. -/
theorem fetch_exhausted_spec (max_retries : Nat) (retry_delays : List Nat)
    (outcomes : Nat → AttemptOutcome) (stats0 : ScrapeStats)
    (parse : String →
      List (String × String × Option Int × String × List String))
    (date theater_name fetch_time : String)
    (hnd : retry_delays ≠ [])
    (hfail : ∀ (a : Nat) (body : String), outcomes a ≠ .success body) :
    (fetch_with_retry max_retries retry_delays outcomes stats0).result =
      .ok none ∧
    (fetch_with_retry max_retries retry_delays outcomes
        stats0).stats.total_requests =
      stats0.total_requests + max_retries ∧
    (fetch_with_retry max_retries retry_delays outcomes
        stats0).stats.failed_requests = stats0.failed_requests + 1 ∧
    (fetch_with_retry max_retries retry_delays outcomes
        stats0).stats.successful_requests = stats0.successful_requests ∧
    scrape_date
        (fetch_with_retry max_retries retry_delays outcomes stats0).result
        parse date theater_name fetch_time =
      .ok ⟨date, theater_name, [], fetch_time, false,
        some "Failed to fetch data after all retries"⟩ := by
  have h := fetch_go_all_fail max_retries retry_delays outcomes hnd hfail
    max_retries 0 stats0 []
  refine ⟨h.1, h.2.1, h.2.2.1, h.2.2.2, ?_⟩
  rw [show (fetch_with_retry max_retries retry_delays outcomes
    stats0).result = .ok none from h.1]
  rfl

/-- C2 witness: three attempts, all timing out, with delays 1, 2, 4. -/
theorem fetch_exhausted_spec_witness :
    (fetch_with_retry 3 [1, 2, 4] outcomes_all_timeout {}).result =
      .ok none ∧
    (fetch_with_retry 3 [1, 2, 4] outcomes_all_timeout
        {}).stats.total_requests = ({} : ScrapeStats).total_requests + 3 ∧
    (fetch_with_retry 3 [1, 2, 4] outcomes_all_timeout
        {}).stats.failed_requests =
      ({} : ScrapeStats).failed_requests + 1 ∧
    (fetch_with_retry 3 [1, 2, 4] outcomes_all_timeout
        {}).stats.successful_requests =
      ({} : ScrapeStats).successful_requests ∧
    scrape_date (fetch_with_retry 3 [1, 2, 4] outcomes_all_timeout
        {}).result (fun _ => []) "2025-11-06" "AMC Empire 25" "t" =
      .ok ⟨"2025-11-06", "AMC Empire 25", [], "t", false,
        some "Failed to fetch data after all retries"⟩ :=
  fetch_exhausted_spec 3 [1, 2, 4] outcomes_all_timeout {} (fun _ => [])
    "2025-11-06" "AMC Empire 25" "t" (by decide)
    (fun a body h => AttemptOutcome.noConfusion h)

/-- C6 counterexample: with delays `[1, 4]` and a rate-limited first
attempt, the engine sleeps `[8, 1]` before the second attempt — the
doubled final delay `4 * 2 = 8` followed by the regular backoff delay
`1` — so the wait is not exactly twice the last configured delay. -/
theorem rate_limit_extra_backoff_counterexample :
    (fetch_with_retry 2 [1, 4] outcomes_rate_limited {}).sleeps =
      [8, 1] ∧
    (fetch_with_retry 2 [1, 4] outcomes_rate_limited {}).sleeps ≠
      [4 * 2] := by
  decide

/-- C6 (amended): on an HTTP 429 the engine sleeps twice the last
configured delay and then — before any non-final next attempt — also the
regular backoff delay for the current attempt index. -/
theorem rate_limit_double_delay_then_backoff (max_retries : Nat)
    (retry_delays : List Nat) (outcomes : Nat → AttemptOutcome)
    (attempt fuel : Nat) (stats : ScrapeStats) (sleeps : List Nat)
    (last d : Nat)
    (h429 : outcomes attempt = .httpError 429)
    (hlast : retry_delays.getLast? = some last)
    (hidx : retry_delays.get? (min attempt (retry_delays.length - 1)) =
      some d)
    (hmore : attempt + 1 < max_retries) :
    fetch_go max_retries retry_delays outcomes attempt (fuel + 1) stats
        sleeps =
      fetch_go max_retries retry_delays outcomes (attempt + 1) fuel
        { stats with total_requests := stats.total_requests + 1 }
        (sleeps ++ [last * 2, d]) := by
  have hl : delays_last retry_delays = .ok last := by
    unfold delays_last
    rw [hlast]
  have hi : delays_index retry_delays attempt = .ok d := by
    unfold delays_index
    rw [hidx]
  simp only [fetch_go, h429, if_true, hl, Except.map, hmore, hi]
  rw [List.append_assoc]
  rfl

/-- C6 witness for the amended claim: delays `[1, 4]`, first attempt
rate limited, one further attempt remaining. -/
theorem rate_limit_double_delay_then_backoff_witness :
    fetch_go 2 [1, 4] outcomes_rate_limited 0 2 {} [] =
      fetch_go 2 [1, 4] outcomes_rate_limited 1 1
        { ({} : ScrapeStats) with
          total_requests := ({} : ScrapeStats).total_requests + 1 }
        ([] ++ [4 * 2, 1]) :=
  rate_limit_double_delay_then_backoff 2 [1, 4] outcomes_rate_limited 0 1
    {} [] 4 1 (by decide) (by decide) (by decide) (by decide)

/-! ## Time-normalization lemmas -/

theorem digitChar_isDigit_aux : ∀ y < 10, (Char.ofNat (48 + y)).isDigit = true := by
  decide

theorem digitChar_isDigit (n : Nat) : (digitChar n).isDigit = true := by
  unfold digitChar
  exact digitChar_isDigit_aux (n % 10) (Nat.mod_lt _ (by omega))

theorem digitChar_toNat_aux : ∀ y < 10, (Char.ofNat (48 + y)).toNat = 48 + y := by
  decide

theorem digitChar_toNat (n : Nat) : (digitChar n).toNat = 48 + n % 10 := by
  unfold digitChar
  exact digitChar_toNat_aux (n % 10) (Nat.mod_lt _ (by omega))

theorem digits_to_nat_one (a : Nat) : digits_to_nat [digitChar a] = a % 10 := by
  simp only [digits_to_nat, List.foldl, digitChar_toNat]
  omega

theorem digits_to_nat_two (a b : Nat) :
    digits_to_nat [digitChar a, digitChar b] = a % 10 * 10 + b % 10 := by
  simp only [digits_to_nat, List.foldl, digitChar_toNat]
  omega

theorem parse_render_time (h mm : Nat) (pm : Bool) (hh1 : 1 ≤ h)
    (hh2 : h ≤ 12) (hmm : mm < 60) :
    parse_time_chars (render_time h mm pm).data = some (h, mm, pm) := by
  have hcolon : (':' : Char).isDigit = false := by decide
  have hspc : (' ' : Char).isDigit = false := by decide
  have hspace : isPySpace ' ' = true := by decide
  have hPd : ('P' : Char).isDigit = false := by decide
  have hAd : ('A' : Char).isDigit = false := by decide
  have hPs : isPySpace 'P' = false := by decide
  have hAs : isPySpace 'A' = false := by decide
  have h2 : mm / 10 % 10 * 10 + mm % 10 = mm := by omega
  have hdata : (render_time h mm pm).data =
      hour_chars h ++ ':' :: pad2 mm ++
        ' ' :: (if pm then ['P', 'M'] else ['A', 'M']) := rfl
  rw [hdata]
  by_cases hlt : h < 10
  · have hh : hour_chars h = [digitChar h] := by
      simp [hour_chars, hlt]
    have h1 : h % 10 = h := Nat.mod_eq_of_lt hlt
    rw [hh]
    cases pm <;>
      simp only [Bool.false_eq_true, ite_false, ite_true, pad2,
        List.cons_append, List.nil_append, parse_time_chars,
        List.span_eq_take_drop, List.takeWhile_cons, List.dropWhile_cons,
        digitChar_isDigit, hcolon, hspc, hspace, hPs, hAs, hPd, hAd,
        if_true, List.takeWhile_nil, List.dropWhile_nil,
        List.isEmpty_cons, digits_to_nat_one, digits_to_nat_two, h1, h2] <;>
      simp only [if_neg (by decide : ¬ ('P' : Char) = 'A')]
  · have hh : hour_chars h = [digitChar (h / 10), digitChar h] := by
      simp [hour_chars, hlt]
    have h1 : h / 10 % 10 * 10 + h % 10 = h := by omega
    rw [hh]
    cases pm <;>
      simp only [Bool.false_eq_true, ite_false, ite_true, pad2,
        List.cons_append, List.nil_append, parse_time_chars,
        List.span_eq_take_drop, List.takeWhile_cons, List.dropWhile_cons,
        digitChar_isDigit, hcolon, hspc, hspace, hPs, hAs, hPd, hAd,
        if_true, List.takeWhile_nil, List.dropWhile_nil,
        List.isEmpty_cons, digits_to_nat_one, digits_to_nat_two, h1, h2] <;>
      simp only [if_neg (by decide : ¬ ('P' : Char) = 'A')]

theorem time_to_minutes_render (h mm : Nat) (pm : Bool) (hh1 : 1 ≤ h)
    (hh2 : h ≤ 12) (hmm : mm < 60) :
    time_to_minutes (render_time h mm pm) =
      (if pm ∧ h ≠ 12 then h + 12
       else if ¬ pm ∧ h = 12 then 0 else h) * 60 + mm := by
  unfold time_to_minutes
  rw [parse_render_time h mm pm hh1 hh2 hmm]

theorem showtime_key_trans : ∀ a b c : String,
    decide (time_to_minutes a ≤ time_to_minutes b) = true →
    decide (time_to_minutes b ≤ time_to_minutes c) = true →
    decide (time_to_minutes a ≤ time_to_minutes c) = true := by
  intro a b c h1 h2
  rw [decide_eq_true_eq] at *
  exact le_trans h1 h2

theorem showtime_key_total : ∀ a b : String,
    (decide (time_to_minutes a ≤ time_to_minutes b) ||
      decide (time_to_minutes b ≤ time_to_minutes a)) = true := by
  intro a b
  rw [Bool.or_eq_true, decide_eq_true_eq, decide_eq_true_eq]
  exact le_total _ _

theorem sort_showtimes_sorted (l : List String) :
    (sort_showtimes l).Sorted
      (fun a b => time_to_minutes a ≤ time_to_minutes b) := by
  have h := @List.sorted_mergeSort String
    (fun a b => decide (time_to_minutes a ≤ time_to_minutes b))
    showtime_key_trans showtime_key_total l.dedup
  exact h.imp (fun hab => of_decide_eq_true hab)

theorem sort_showtimes_toFinset (l : List String) :
    (sort_showtimes l).toFinset = l.toFinset := by
  apply Finset.ext
  intro x
  simp [sort_showtimes, List.mem_toFinset, List.mem_dedup]

theorem sort_showtimes_nodup (l : List String) : (sort_showtimes l).Nodup :=
  ((List.mergeSort_perm l.dedup _).nodup_iff).mpr (List.nodup_dedup l)

/-- C8: the minutes-since-midnight key maps `"12:00 AM"` to 0 and
`"12:00 PM"` to 720, sorts `"1:05 PM"` after `"12:30 PM"`, on every
canonical `H:MM AM|PM` string computes hour 0 for 12 AM, hour 12 for
12 PM and hour + 12 for any other PM hour, and the parser's showtime
finalization sorts the deduplicated showtimes ascending by this key. -/
theorem time_normalization_spec :
    time_to_minutes "12:00 AM" = 0 ∧
    time_to_minutes "12:00 PM" = 720 ∧
    time_to_minutes "12:30 PM" < time_to_minutes "1:05 PM" ∧
    (∀ (h mm : Nat) (pm : Bool), 1 ≤ h → h ≤ 12 → mm < 60 →
      time_to_minutes (render_time h mm pm) =
        (if pm ∧ h ≠ 12 then h + 12
         else if ¬ pm ∧ h = 12 then 0 else h) * 60 + mm) ∧
    (∀ l : List String,
      (sort_showtimes l).Sorted
        (fun a b => time_to_minutes a ≤ time_to_minutes b) ∧
      (sort_showtimes l).toFinset = l.toFinset ∧
      (sort_showtimes l).Nodup) :=
  ⟨by decide, by decide, by decide, time_to_minutes_render,
    fun l => ⟨sort_showtimes_sorted l, sort_showtimes_toFinset l,
      sort_showtimes_nodup l⟩⟩

/-- C8 witness: the canonical conversion at `1:05 PM` and the sortedness
of a concrete deduplicated showtime list. -/
theorem time_normalization_spec_witness :
    time_to_minutes (render_time 1 5 true) =
      (if (true : Bool) ∧ (1 : Nat) ≠ 12 then 1 + 12
       else if ¬ (true : Bool) ∧ (1 : Nat) = 12 then 0 else 1) * 60 + 5 ∧
    (sort_showtimes ["1:05 PM", "12:30 PM", "1:05 PM"]).Sorted
      (fun a b => time_to_minutes a ≤ time_to_minutes b) :=
  ⟨time_normalization_spec.2.2.2.1 1 5 true (by decide) (by decide)
      (by decide),
    (time_normalization_spec.2.2.2.2 ["1:05 PM", "12:30 PM", "1:05 PM"]).1⟩

end AmcAlert
